import Mathlib

/-!
Verification development for the Bluesky MCP server
(`src/index.ts`, `src/client.ts`, `src/tools/{posting,feeds,search,engagement}.ts`).

The TypeScript source is shallowly embedded: pure helpers become Lean
functions, the stateful client/agent layer becomes explicit state passing
over an `Upstream` record-store state, exceptions become `Except String`,
and the MCP dispatch boundary becomes a total function producing response
envelopes.  JavaScript string operations used by the source
(`toLowerCase`, `endsWith`, `startsWith`) are modelled over `List Char`.
-/

namespace Bluesky

/-! ## JavaScript string helpers (ASCII semantics, as used by the source) -/

/-- Check that `pat` occurs at the head of `cs` (element-wise comparison). -/
def subAt : List Char → List Char → Bool
  | _, [] => true
  | [], _ :: _ => false
  | c :: cs, d :: ds => c == d && subAt cs ds

/-- Check that `pat` occurs as a contiguous run anywhere inside `cs`. -/
def hasRun : List Char → List Char → Bool
  | [], pat => subAt [] pat
  | c :: cs, pat => subAt (c :: cs) pat || hasRun cs pat

/-- JavaScript `s.startsWith(t)`. -/
def jsStartsWith (s t : String) : Bool := subAt s.data t.data

/-- JavaScript `s.endsWith(t)`. -/
def jsEndsWith (s t : String) : Bool := subAt s.data.reverse t.data.reverse

/-- ASCII lower-casing of one character, as `toLowerCase` acts on the
    ASCII inputs relevant here. -/
def lowerChar (c : Char) : Char :=
  if 'A' ≤ c ∧ c ≤ 'Z' then Char.ofNat (c.toNat + 32) else c

/-- JavaScript `s.toLowerCase()` (ASCII fragment). -/
def jsLower (s : String) : String := ⟨s.data.map lowerChar⟩

/-- String containment: `pat` occurs contiguously inside `s`. -/
def strHasRun (s pat : String) : Bool := hasRun s.data pat.data

/-! ## Image encoding detection (`src/tools/posting.ts` lines 144-162 and
`src/tools/search.ts` / part_002 lines 16-22) -/

/-- Mime types the detector can return. -/
inductive ImageEncoding where
  | png
  | jpeg
deriving DecidableEq, Repr

/-- detectImageEncoding from `src/tools/posting.ts` (lines 144-162):
extension checks first (on the lower-cased input), then data-URL prefixes
(case-sensitive, on the raw input), defaulting to JPEG. -/
def detectImageEncoding (pathOrData : String) : ImageEncoding :=
  let lowerPath := jsLower pathOrData
  if jsEndsWith lowerPath ".png" then .png
  else if jsEndsWith lowerPath ".jpg" || jsEndsWith lowerPath ".jpeg" then .jpeg
  else if jsStartsWith pathOrData "data:image/png" then .png
  else if jsStartsWith pathOrData "data:image/jpeg" || jsStartsWith pathOrData "data:image/jpg" then .jpeg
  else .jpeg

/-- detectImageEncoding from `src/tools/search.ts` (part_002 lines 16-22),
used by the avatar tool: a single combined PNG test, defaulting to JPEG. -/
def detectImageEncodingAvatar (pathOrData : String) : ImageEncoding :=
  let lowerPath := jsLower pathOrData
  if jsEndsWith lowerPath ".png" || jsStartsWith pathOrData "data:image/png" then .png
  else .jpeg

/-- The eight-byte PNG file signature, read as a JavaScript string. -/
def pngMagic : String := "\x89PNG\r\n\x1a\n"

/-- The PNG condition exactly as claim C6 words it: a filename ending in
`.png` (case-insensitive), or inline data beginning with a PNG data-URL
prefix, or inline data beginning with the PNG magic bytes. -/
def c6ClaimedPngCondition (s : String) : Bool :=
  jsEndsWith (jsLower s) ".png" || jsStartsWith s "data:image/png" || jsStartsWith s pngMagic

/-! ## Data model

AT-URIs are kept in their canonical split form
`at://<did>/<collection>/<rkey>`: the source's `uri.split('/')[2]` is the
`did` field and `uri.split('/').pop()` is the `rkey` field.  Record keys
and CIDs are opaque identifiers; the model draws them from a freshness
counter, so both are `Nat`. -/

/-- An AT-URI in split form. -/
structure AtUri where
  did : String
  collection : String
  rkey : Nat
deriving DecidableEq, Repr

/-- A `{uri, cid}` pair identifying one immutable revision of a record. -/
structure RecordRef where
  uri : AtUri
  cid : Nat
deriving DecidableEq, Repr

/-- The `reply` field of a post record: strong references to the thread
root and to the direct parent. -/
structure ReplyRef where
  root : RecordRef
  parent : RecordRef
deriving DecidableEq, Repr

/-- A post record as built by `BlueskyClient.post`: text, optional reply
context, creation time (model time units stand in for the ISO timestamp). -/
structure PostRecord where
  text : String
  reply : Option ReplyRef
  createdAt : Nat
deriving DecidableEq, Repr

/-- The record types the embedded operations create. -/
inductive RecordValue where
  | post (r : PostRecord)
  | like (subject : RecordRef)
  | repost (subject : RecordRef)
  | follow (subjectDid : String)
  | listitem (list : AtUri) (subjectDid : String)
deriving DecidableEq, Repr

/-- JavaScript `parentRecord.reply` access: only post records carry a
reply field; on any other value the access yields `undefined`. -/
def RecordValue.replyField : RecordValue → Option ReplyRef
  | .post r => r.reply
  | _ => none

/-- The repository collection (NSID) a record value belongs to. -/
def RecordValue.nsid : RecordValue → String
  | .post _ => "app.bsky.feed.post"
  | .like _ => "app.bsky.feed.like"
  | .repost _ => "app.bsky.feed.repost"
  | .follow _ => "app.bsky.graph.follow"
  | .listitem _ _ => "app.bsky.graph.listitem"

/-- One record stored upstream. -/
structure Stored where
  uri : AtUri
  cid : Nat
  value : RecordValue
deriving DecidableEq, Repr

/-- Strong reference to a stored record. -/
def refOf (s : Stored) : RecordRef := ⟨s.uri, s.cid⟩

/-- Profile record fields: the two the update tool can touch plus the
fields a merge-patch must leave alone (avatar, banner). -/
structure ProfileRecord where
  displayName : Option String
  description : Option String
  avatar : Option String
  banner : Option String
deriving DecidableEq, Repr

/-- The state of the upstream platform plus the model's bookkeeping:
stored records, a freshness counter for new rkeys/CIDs, a counter of
record creations (used to index the failure schedule), the model clock,
an injected upstream failure schedule (`failAt n = some msg` makes the
`n`-th record creation fail with `msg`, standing in for network and
rate-limit errors), and the account profile. -/
structure Upstream where
  records : List Stored
  nextId : Nat
  creates : Nat
  time : Nat
  failAt : Nat → Option String
  profile : Option ProfileRecord

/-- The authenticated account's DID (`agent.session.did`). -/
def selfDid : String := "did:plc:self"

/-- The authenticated account's handle (`this.handle`). -/
def selfHandle : String := "user.bsky.social"

/-- A state with no records, counter at zero and no scheduled failures. -/
def initialUpstream : Upstream :=
  { records := [], nextId := 0, creates := 0, time := 0, failAt := fun _ => none, profile := none }

/-! ## Upstream primitives

Modelled from the spec: the upstream platform (§6) is an external
collaborator keyed by opaque URI/CID pairs; record creation returns a
fresh reference, and content operations on references that do not resolve
fail with an upstream error. -/

/-- Modelled from the spec: upstream record creation.  Consumes one slot
of the failure schedule (an injected upstream error aborts the call),
otherwise stores the record under a fresh rkey/CID and returns its
reference. -/
def createRecord (collection : String) (v : RecordValue) (st : Upstream) :
    Except String RecordRef × Upstream :=
  let n := st.creates
  let st1 : Upstream := { st with creates := n + 1 }
  match st1.failAt n with
  | some msg => (.error msg, st1)
  | none =>
      let uri : AtUri := ⟨selfDid, collection, st1.nextId⟩
      let stored : Stored := ⟨uri, st1.nextId, v⟩
      (.ok ⟨uri, st1.nextId⟩,
        { st1 with records := stored :: st1.records, nextId := st1.nextId + 1 })

/-- agent.getPost({repo, rkey}): fetch a record by repository DID and
record key; an unresolvable reference is an upstream error. -/
def agentGetPost (repo : String) (rkey : Nat) (st : Upstream) :
    Except String Stored × Upstream :=
  match st.records.find? (fun r => r.uri.did == repo && r.uri.rkey == rkey) with
  | some r => (.ok r, st)
  | none => (.error "Post not found", st)

/-- Modelled from the spec: upstream record deletion keyed by
(repo, collection, rkey).  Deleting a reference that does not resolve to
a stored record is an upstream error, not a silent no-op (§4.5, §8). -/
def deleteRecordAt (repo : String) (collection : String) (rkey : Nat) (st : Upstream) :
    Except String Unit × Upstream :=
  let target : AtUri := ⟨repo, collection, rkey⟩
  if st.records.any (fun r => r.uri == target) then
    (.ok (), { st with records := st.records.filter (fun r => !(r.uri == target)) })
  else
    (.error "Record not found", st)

/-- await new Promise(resolve => setTimeout(resolve, 1000)): one pacing
unit elapses. -/
def sleep (st : Upstream) : Upstream := { st with time := st.time + 1 }

/-! ## BlueskyClient (client.ts, part_000) -/

/-- What `client.post` returns: the new record's reference and a derived
web URL. -/
structure PostResult where
  uri : AtUri
  cid : Nat
  url : String
deriving DecidableEq, Repr

/-- Derived URL
`https://bsky.app/profile/${handle}/post/${uri.split('/').pop()}`. -/
def postUrl (uri : AtUri) : String :=
  "https://bsky.app/profile/" ++ selfHandle ++ "/post/" ++ Nat.repr uri.rkey

/-- Root-reference inference in `BlueskyClient.post` (part_000 lines
41-47): `parentRecord.reply?.root || {uri, cid}` — if the parent record is
itself a reply use its own root, otherwise the parent is the root. -/
def inferredRoot (parent : Stored) (rt : RecordRef) : RecordRef :=
  match parent.value.replyField with
  | some pr => pr.root
  | none => rt

/-- BlueskyClient.post (part_000 lines 22-84).  Builds the post record
(facet detection is a pure text transform and is kept abstract in the
`text` field); with a `replyTo` option it first fetches the parent record
by the split URI's repo/rkey, infers the thread root from it, and attaches
the `reply` context; then creates the record upstream. -/
def BlueskyClient.post (text : String) (replyTo : Option RecordRef) (st : Upstream) :
    Except String PostResult × Upstream :=
  match replyTo with
  | none =>
      let record : PostRecord := { text := text, reply := none, createdAt := st.time }
      match createRecord "app.bsky.feed.post" (.post record) st with
      | (.ok ref, st') => (.ok ⟨ref.uri, ref.cid, postUrl ref.uri⟩, st')
      | (.error e, st') => (.error e, st')
  | some rt =>
      match agentGetPost rt.uri.did rt.uri.rkey st with
      | (.error e, st') => (.error e, st')
      | (.ok parentPost, st') =>
          let record : PostRecord :=
            { text := text,
              reply := some { root := inferredRoot parentPost rt, parent := rt },
              createdAt := st'.time }
          match createRecord "app.bsky.feed.post" (.post record) st' with
          | (.ok ref, st'') => (.ok ⟨ref.uri, ref.cid, postUrl ref.uri⟩, st'')
          | (.error e, st'') => (.error e, st'')

/-- Reference to the top-level post in the C1 witness scenario. -/
def c1RootRef : RecordRef := ⟨⟨selfDid, "app.bsky.feed.post", 0⟩, 0⟩

/-- Reference to the intermediate reply in the C1 witness scenario. -/
def c1ParentRef : RecordRef := ⟨⟨selfDid, "app.bsky.feed.post", 1⟩, 1⟩

/-- The stored intermediate reply `R` (a reply whose root is the top-level
post) in the C1 witness scenario. -/
def c1ParentStored : Stored :=
  ⟨⟨selfDid, "app.bsky.feed.post", 1⟩, 1,
    .post ⟨"reply", some ⟨c1RootRef, c1RootRef⟩, 0⟩⟩

/-- A concrete state holding a top-level post `P` (rkey 0) and a reply `R`
to it (rkey 1). -/
def c1State : Upstream :=
  { initialUpstream with
    records := [c1ParentStored,
                ⟨⟨selfDid, "app.bsky.feed.post", 0⟩, 0, .post ⟨"rootpost", none, 0⟩⟩],
    nextId := 2 }

/-! ## Thread creation (`src/tools/posting.ts`, create_thread lines 96-125) -/

/-- The `{uri, cid, url}` summary pushed onto `results` for each created
post. -/
def toPostResult (s : Stored) : PostResult := ⟨s.uri, s.cid, postUrl s.uri⟩

/-- The for-loop of `create_thread.handler`: each iteration posts the next
text as a reply to the previous post (the first with no reply), pushes the
`{uri, cid, url}` summary, updates `previousPost`, and sleeps for the
pacing delay; an exception from `client.post` propagates out of the loop,
losing the accumulated `results` array. -/
def createThreadLoop (texts : List String) (previousPost : Option RecordRef)
    (results : List PostResult) (st : Upstream) :
    Except String (List PostResult) × Upstream :=
  match texts with
  | [] => (.ok results, st)
  | text :: rest =>
      match BlueskyClient.post text previousPost st with
      | (.error e, st') => (.error e, st')
      | (.ok result, st') =>
          createThreadLoop rest (some ⟨result.uri, result.cid⟩)
            (results ++ [result]) (sleep st')

/-- The success payload of `create_thread.handler`. -/
structure ThreadResult where
  thread : List PostResult
  count : Nat
  first_post_url : String
  message : String
deriving DecidableEq, Repr

/-- create_thread.handler: run the loop starting with no previous post and
an empty `results` array, then build the success object from `results`
(reading `results[0]` — a TypeError on an empty array, which the schema's
`minItems: 2` rules out). -/
def createThreadHandler (posts : List String) (st : Upstream) :
    Except String ThreadResult × Upstream :=
  match createThreadLoop posts none [] st with
  | (.error e, st') => (.error e, st')
  | (.ok results, st') =>
      match results with
      | [] => (.error "TypeError: cannot read properties of undefined", st')
      | r0 :: _ =>
          (.ok { thread := results, count := results.length, first_post_url := r0.url,
                 message := "Thread created with " ++ Nat.repr results.length ++
                   " posts! View at: " ++ r0.url }, st')

/-- Chain invariant for a run of newly created thread posts: starting from
the reference `prev` at time `t`, each stored post in turn carries the
corresponding text, a reply context `{root, parent := previous post}`, and
a creation time one pacing unit after its predecessor. -/
def chainFrom (root : RecordRef) : RecordRef → Nat → List String → List Stored → Prop
  | _, _, [], [] => True
  | prev, t, text :: texts, p :: rest =>
      p.value = RecordValue.post ⟨text, some ⟨root, prev⟩, t⟩ ∧
        chainFrom root (refOf p) (t + 1) texts rest
  | _, _, [], _ :: _ => False
  | _, _, _ :: _, [] => False

/-- The stored record that a successful `client.post` adds: fresh uri/cid
from the freshness counter, post record with the given text and reply
context, created at the current model time. -/
def mkPostStored (text : String) (reply : Option ReplyRef) (st : Upstream) : Stored :=
  ⟨⟨selfDid, "app.bsky.feed.post", st.nextId⟩, st.nextId, .post ⟨text, reply, st.time⟩⟩

/-- The state after a successful record creation of `s`. -/
def afterCreate (s : Stored) (st : Upstream) : Upstream :=
  { st with creates := st.creates + 1, records := s :: st.records, nextId := st.nextId + 1 }

/-! ## Profile update (part_000 lines 169-177, part_002 update_profile) -/

/-- The argument object of `updateProfile`: both fields optional. -/
structure ProfileUpdates where
  displayName : Option String
  description : Option String
deriving DecidableEq, Repr

/-- The callback passed to `agent.upsertProfile`: spread the existing
record, then take each updated field with `??` fallback to the existing
value (`updates.x ?? existing?.x`); fields outside the update (avatar,
banner) ride along on the spread. -/
def upsertProfileTransform (updates : ProfileUpdates) (existing : Option ProfileRecord) :
    ProfileRecord :=
  { displayName :=
      match updates.displayName with
      | some v => some v
      | none => existing.bind (fun e => e.displayName),
    description :=
      match updates.description with
      | some v => some v
      | none => existing.bind (fun e => e.description),
    avatar := existing.bind (fun e => e.avatar),
    banner := existing.bind (fun e => e.banner) }

/-- BlueskyClient.updateProfile: read-modify-write of the profile record
through `upsertProfile`. -/
def BlueskyClient.updateProfile (updates : ProfileUpdates) (st : Upstream) :
    Except String Unit × Upstream :=
  (.ok (), { st with profile := some (upsertProfileTransform updates st.profile) })

/-! ## Engagement operations (part_001, part_000, part_002) -/

/-- BlueskyClient.like = agent.like(uri, cid): creates a like record whose
subject is the given reference and returns the new record's reference. -/
def BlueskyClient.like (uri : AtUri) (cid : Nat) (st : Upstream) :
    Except String RecordRef × Upstream :=
  createRecord "app.bsky.feed.like" (.like ⟨uri, cid⟩) st

/-- BlueskyClient.deleteLike = agent.deleteLike(likeUri): the SDK splits
the AT-URI and deletes from the like collection at (repo, rkey). -/
def BlueskyClient.deleteLike (likeUri : AtUri) (st : Upstream) :
    Except String Unit × Upstream :=
  deleteRecordAt likeUri.did "app.bsky.feed.like" likeUri.rkey st

/-- BlueskyClient.repost = agent.repost(uri, cid). -/
def BlueskyClient.repost (uri : AtUri) (cid : Nat) (st : Upstream) :
    Except String RecordRef × Upstream :=
  createRecord "app.bsky.feed.repost" (.repost ⟨uri, cid⟩) st

/-- BlueskyClient.deleteRepost = agent.deleteRepost(repostUri). -/
def BlueskyClient.deleteRepost (repostUri : AtUri) (st : Upstream) :
    Except String Unit × Upstream :=
  deleteRecordAt repostUri.did "app.bsky.feed.repost" repostUri.rkey st

/-- BlueskyClient.follow = agent.follow(did): creates a follow record for
the subject DID. -/
def BlueskyClient.follow (subjectDid : String) (st : Upstream) :
    Except String RecordRef × Upstream :=
  createRecord "app.bsky.graph.follow" (.follow subjectDid) st

/-- BlueskyClient.deleteFollow = agent.deleteFollow(followUri). -/
def BlueskyClient.deleteFollow (followUri : AtUri) (st : Upstream) :
    Except String Unit × Upstream :=
  deleteRecordAt followUri.did "app.bsky.graph.follow" followUri.rkey st

/-- BlueskyClient.addToList: `listitem.create({repo: session.did},
{list, subject, createdAt})`. -/
def BlueskyClient.addToList (listUri : AtUri) (subjectDid : String) (st : Upstream) :
    Except String RecordRef × Upstream :=
  createRecord "app.bsky.graph.listitem" (.listitem listUri subjectDid) st

/-- BlueskyClient.removeFromList: takes the membership record's URI,
extracts its rkey (`listItemUri.split('/').pop()`), and deletes from the
listitem collection of the authenticated repo. -/
def BlueskyClient.removeFromList (listItemUri : AtUri) (st : Upstream) :
    Except String Unit × Upstream :=
  deleteRecordAt selfDid "app.bsky.graph.listitem" listItemUri.rkey st

/-- Success payload of `like_post`. -/
structure LikeResult where
  success : Bool
  like_uri : AtUri
  message : String
deriving DecidableEq, Repr

/-- Success payload of `repost`. -/
structure RepostResult where
  success : Bool
  repost_uri : AtUri
  message : String
deriving DecidableEq, Repr

/-- Success payload of `follow`. -/
structure FollowResult where
  success : Bool
  follow_uri : AtUri
  message : String
deriving DecidableEq, Repr

/-- Success payload of `add_to_list`. -/
structure AddToListResult where
  success : Bool
  listitem_uri : AtUri
  message : String
deriving DecidableEq, Repr

/-- Bare acknowledgement payload returned by the undo handlers. -/
structure AckResult where
  success : Bool
  message : String
deriving DecidableEq, Repr

/-- like_post.handler (part_001 lines 22-33): returns the like record's
own reference as `like_uri`. -/
def likePostHandler (uri : AtUri) (cid : Nat) (st : Upstream) :
    Except String LikeResult × Upstream :=
  match BlueskyClient.like uri cid st with
  | (.ok result, st') => (.ok ⟨true, result.uri, "Post liked successfully!"⟩, st')
  | (.error e, st') => (.error e, st')

/-- unlike_post.handler (part_001 lines 50-57): passes the supplied
`like_uri` to `client.deleteLike`. -/
def unlikePostHandler (like_uri : AtUri) (st : Upstream) :
    Except String AckResult × Upstream :=
  match BlueskyClient.deleteLike like_uri st with
  | (.ok _, st') => (.ok ⟨true, "Like removed successfully!"⟩, st')
  | (.error e, st') => (.error e, st')

/-- repost.handler (part_001 lines 78-89). -/
def repostHandler (uri : AtUri) (cid : Nat) (st : Upstream) :
    Except String RepostResult × Upstream :=
  match BlueskyClient.repost uri cid st with
  | (.ok result, st') => (.ok ⟨true, result.uri, "Post reposted successfully!"⟩, st')
  | (.error e, st') => (.error e, st')

/-- delete_repost.handler (part_001 lines 106-113). -/
def deleteRepostHandler (repost_uri : AtUri) (st : Upstream) :
    Except String AckResult × Upstream :=
  match BlueskyClient.deleteRepost repost_uri st with
  | (.ok _, st') => (.ok ⟨true, "Repost deleted successfully!"⟩, st')
  | (.error e, st') => (.error e, st')

/-- follow.handler (part_001 lines 130-138). -/
def followHandler (did : String) (st : Upstream) :
    Except String FollowResult × Upstream :=
  match BlueskyClient.follow did st with
  | (.ok result, st') => (.ok ⟨true, result.uri, "User followed successfully!"⟩, st')
  | (.error e, st') => (.error e, st')

/-- unfollow.handler (part_001 lines 155-162). -/
def unfollowHandler (follow_uri : AtUri) (st : Upstream) :
    Except String AckResult × Upstream :=
  match BlueskyClient.deleteFollow follow_uri st with
  | (.ok _, st') => (.ok ⟨true, "User unfollowed successfully!"⟩, st')
  | (.error e, st') => (.error e, st')

/-- add_to_list.handler (part_002 lines 487-498): returns the membership
record's own reference as `listitem_uri`. -/
def addToListHandler (list_uri : AtUri) (did : String) (st : Upstream) :
    Except String AddToListResult × Upstream :=
  match BlueskyClient.addToList list_uri did st with
  | (.ok result, st') => (.ok ⟨true, result.uri, "User added to list successfully!"⟩, st')
  | (.error e, st') => (.error e, st')

/-- remove_from_list.handler (part_002 lines 515-522). -/
def removeFromListHandler (listitem_uri : AtUri) (st : Upstream) :
    Except String AckResult × Upstream :=
  match BlueskyClient.removeFromList listitem_uri st with
  | (.ok _, st') => (.ok ⟨true, "User removed from list successfully!"⟩, st')
  | (.error e, st') => (.error e, st')

/-! ## Thread tree formatting (`src/tools/feeds.ts` lines 101-130) -/

/-- The post fields the formatter copies out of an upstream thread node. -/
structure ThreadPostView where
  uri : AtUri
  cid : Nat
  authorHandle : String
  authorDisplayName : Option String
  text : String
  replyCount : Nat
  repostCount : Nat
  likeCount : Nat

/-- An upstream thread node: either a live post with its reply subtrees,
or a `notFoundPost` placeholder for a deleted/unavailable post (its
subtree, if the upstream were ever to supply one, is unreachable). -/
inductive ThreadNode where
  | post (p : ThreadPostView) (replies : List ThreadNode)
  | notFound (replies : List ThreadNode)

/-- A node of the formatted tree returned by `get_post_thread`. -/
inductive FormattedNode where
  | node (p : ThreadPostView) (replies : List FormattedNode)

/-- The reply list of a formatted node. -/
def FormattedNode.replies : FormattedNode → List FormattedNode
  | .node _ rs => rs

mutual

/-- formatThread: a missing (`null`/`notFoundPost`) node maps to `null`;
a live node maps to its projection with
`replies.map(formatThread).filter(Boolean)` as children. -/
def formatThread : ThreadNode → Option FormattedNode
  | .notFound _ => none
  | .post p rs => some (.node p (formatReplies rs))

/-- The `replies?.map(formatThread).filter(Boolean) || []` composite:
format each child and drop the `null`s, preserving order. -/
def formatReplies : List ThreadNode → List FormattedNode
  | [] => []
  | t :: ts =>
      match formatThread t with
      | none => formatReplies ts
      | some f => f :: formatReplies ts

end

/-! ## Listing limits (`src/tools/feeds.ts` 18-19, `search.ts` 23-27,
part_001 get_post_likes/get_post_reposts, part_002 get_followers /
get_following) -/

/-- JavaScript `x || d` on an optional numeric argument: an absent
argument and the falsy number 0 both fall back to the default. -/
def jsOrNum (x : Option Int) (d : Int) : Int :=
  match x with
  | none => d
  | some v => if v = 0 then d else v

/-- Limit forwarded upstream by get_timeline: `args.limit || 50`. -/
def getTimelineUpstreamLimit (limit : Option Int) : Int := jsOrNum limit 50

/-- Limit forwarded upstream by get_author_feed: `args.limit || 50`. -/
def getAuthorFeedUpstreamLimit (limit : Option Int) : Int := jsOrNum limit 50

/-- Limit forwarded upstream by search_posts: `args.limit || 25`. -/
def searchPostsUpstreamLimit (limit : Option Int) : Int := jsOrNum limit 25

/-- Limit forwarded upstream by get_followers: `args.limit || 50`. -/
def getFollowersUpstreamLimit (limit : Option Int) : Int := jsOrNum limit 50

/-- Limit forwarded upstream by get_following: `args.limit || 50`. -/
def getFollowingUpstreamLimit (limit : Option Int) : Int := jsOrNum limit 50

/-- Limit forwarded upstream by get_post_likes: `args.limit || 50`. -/
def getPostLikesUpstreamLimit (limit : Option Int) : Int := jsOrNum limit 50

/-- Limit forwarded upstream by get_post_reposts: `args.limit || 50`. -/
def getPostRepostsUpstreamLimit (limit : Option Int) : Int := jsOrNum limit 50

/-! ## Dispatch boundary (`src/index.ts` lines 68-108)

Handler results are objects that the dispatcher serialises with
`JSON.stringify`; the model keeps the serialised form as a flat
`key=value` rendering, which is all the envelope-level claims need. -/

/-- Canonical string rendering of an AT-URI. -/
def atUriString (u : AtUri) : String :=
  "at://" ++ u.did ++ "/" ++ u.collection ++ "/" ++ Nat.repr u.rkey

/-- Typed argument payloads for the modelled tools. -/
inductive ToolArgs where
  | threadArgs (posts : List String)
  | likeArgs (uri : AtUri) (cid : Nat)
  | unlikeArgs (like_uri : AtUri)
  | repostArgs (uri : AtUri) (cid : Nat)
  | unrepostArgs (repost_uri : AtUri)
  | followArgs (did : String)
  | unfollowArgs (follow_uri : AtUri)
  | addToListArgs (list_uri : AtUri) (did : String)
  | removeFromListArgs (listitem_uri : AtUri)
  | profileArgs (displayName : Option String) (description : Option String)
  | emptyArgs
deriving DecidableEq, Repr

/-- A registry entry's handler, taking the raw arguments and the shared
client, and producing either a serialised result object or a thrown
error. -/
def ToolHandler : Type := ToolArgs → Upstream → Except String String × Upstream

/-- Serialised form of a `create_thread` success payload (contains every
created post's reference). -/
def serializeThreadResult (r : ThreadResult) : String :=
  "success=true thread=" ++
    String.intercalate "," (r.thread.map (fun p => atUriString p.uri)) ++
    " count=" ++ Nat.repr r.count ++ " message=" ++ r.message

/-- Serialised form of an acknowledgement payload. -/
def serializeAck (r : AckResult) : String := "success=true message=" ++ r.message

/-- Registry entry for create_thread. -/
def createThreadTool : ToolHandler := fun args st =>
  match args with
  | .threadArgs posts =>
      (match createThreadHandler posts st with
       | (.ok r, st') => (.ok (serializeThreadResult r), st')
       | (.error e, st') => (.error e, st'))
  | _ => (.error "Invalid arguments", st)

/-- Registry entry for like_post. -/
def likeTool : ToolHandler := fun args st =>
  match args with
  | .likeArgs uri cid =>
      (match likePostHandler uri cid st with
       | (.ok r, st') =>
           (.ok ("success=true like_uri=" ++ atUriString r.like_uri ++ " message=" ++ r.message),
            st')
       | (.error e, st') => (.error e, st'))
  | _ => (.error "Invalid arguments", st)

/-- Registry entry for unlike_post. -/
def unlikeTool : ToolHandler := fun args st =>
  match args with
  | .unlikeArgs like_uri =>
      (match unlikePostHandler like_uri st with
       | (.ok r, st') => (.ok (serializeAck r), st')
       | (.error e, st') => (.error e, st'))
  | _ => (.error "Invalid arguments", st)

/-- Registry entry for update_profile. -/
def updateProfileTool : ToolHandler := fun args st =>
  match args with
  | .profileArgs displayName description =>
      (match BlueskyClient.updateProfile ⟨displayName, description⟩ st with
       | (.ok _, st') => (.ok "success=true message=Profile updated successfully", st')
       | (.error e, st') => (.error e, st'))
  | _ => (.error "Invalid arguments", st)

/-- The modelled portion of the source's `allTools` registry (the merge of
the posting, feed, search and engagement tool groups); the dispatch
theorems are stated over an arbitrary registry, this concrete one feeds
the witnesses. -/
def modeledTools : List (String × ToolHandler) :=
  [("create_thread", createThreadTool),
   ("like_post", likeTool),
   ("unlike_post", unlikeTool),
   ("update_profile", updateProfileTool)]

/-- The protocol envelope produced by the dispatcher: one text content
block and the error flag (`isError` absent on success is modelled as
`false`). -/
structure Envelope where
  text : String
  isError : Bool
deriving DecidableEq, Repr

/-- The CallToolRequestSchema handler (`src/index.ts` 68-108): look the
tool up by name (unknown names produce an error envelope without
throwing), call its handler with the arguments (defaulted to empty), wrap
a normal return in a success envelope and a thrown error in an error
envelope carrying `Error executing <tool>: <message>`. -/
def dispatch (registry : List (String × ToolHandler)) (toolName : String)
    (args : Option ToolArgs) (st : Upstream) : Envelope × Upstream :=
  match List.lookup toolName registry with
  | none => ({ text := "Unknown tool: " ++ toolName, isError := true }, st)
  | some tool =>
      match tool (args.getD ToolArgs.emptyArgs) st with
      | (.ok result, st') => ({ text := result, isError := false }, st')
      | (.error msg, st') =>
          ({ text := "Error executing " ++ toolName ++ ": " ++ msg, isError := true }, st')

/-- One inbound call-tool request. -/
structure ToolRequest where
  name : String
  arguments : Option ToolArgs

/-- The serving loop: each inbound request is dispatched in turn and its
envelope appended to the responses; no call can abort the loop. -/
def serve (registry : List (String × ToolHandler)) :
    List ToolRequest → Upstream → List Envelope × Upstream
  | [], st => ([], st)
  | req :: rest, st =>
      let (env, st') := dispatch registry req.name req.arguments st
      let (envs, st'') := serve registry rest st'
      (env :: envs, st'')

/-! ## Concrete scenario states for witnesses and counterexamples -/

/-- Failure schedule for the C5 scenario: the second record creation
(index 1) fails upstream with a rate-limit message. -/
def c5FailSchedule : Nat → Option String :=
  fun n => if n = 1 then some "Rate limit exceeded" else none

/-- State for the C5 scenario: empty store, second create fails. -/
def c5State : Upstream := { initialUpstream with failAt := c5FailSchedule }

/-- A post by another account, target of the C9 engagement scenario. -/
def c9PostUri : AtUri := ⟨"did:plc:alice", "app.bsky.feed.post", 7⟩

/-- The stored target post of the C9 scenario. -/
def c9Post : Stored := ⟨c9PostUri, 7, .post ⟨"hello", none, 0⟩⟩

/-- State for the C9 scenario: one stored post, fresh counter beyond it. -/
def c9State : Upstream := { initialUpstream with records := [c9Post], nextId := 8 }

/-! ## Theorems -/

/-- Unfolding lemma: the state after a create, field by field. -/
theorem afterCreate_fields (s : Stored) (st : Upstream) :
    (afterCreate s st).records = s :: st.records ∧
    (afterCreate s st).time = st.time ∧
    (afterCreate s st).failAt = st.failAt ∧
    (afterCreate s st).nextId = st.nextId + 1 ∧
    (afterCreate s st).creates = st.creates + 1 := by
  refine ⟨rfl, rfl, rfl, rfl, rfl⟩

/-- Evaluation of a successful top-level `client.post` (no `replyTo`). -/
theorem clientPost_top_run (text : String) (st : Upstream)
    (hok : st.failAt st.creates = none) :
    BlueskyClient.post text none st =
      (.ok (toPostResult (mkPostStored text none st)),
       afterCreate (mkPostStored text none st) st) := by
  simp only [BlueskyClient.post, createRecord, hok, mkPostStored, afterCreate, toPostResult]

/-- Evaluation of a successful reply `client.post`: the parent lookup
resolves to `parent` and the upstream create succeeds; the new record's
root is inferred from the parent. -/
theorem clientPost_reply_run (text : String) (rt : RecordRef) (st : Upstream)
    (parent : Stored)
    (hfind : st.records.find? (fun r => r.uri.did == rt.uri.did && r.uri.rkey == rt.uri.rkey)
      = some parent)
    (hok : st.failAt st.creates = none) :
    BlueskyClient.post text (some rt) st =
      (.ok (toPostResult (mkPostStored text (some ⟨inferredRoot parent rt, rt⟩) st)),
       afterCreate (mkPostStored text (some ⟨inferredRoot parent rt, rt⟩) st) st) := by
  simp only [BlueskyClient.post, agentGetPost, createRecord, hfind, hok, mkPostStored,
    afterCreate, toPostResult]

/-- The head of the record store always resolves when looked up by its own
repo/rkey. -/
theorem find_head (p : Stored) (rest : List Stored) :
    (p :: rest).find? (fun r => r.uri.did == (refOf p).uri.did &&
      r.uri.rkey == (refOf p).uri.rkey) = some p := by
  simp [List.find?, refOf]

/-- Loop invariant for `create_thread`: if the head of the record store is
the previous post and no upstream failure is scheduled, the loop succeeds,
appends one result per text, prepends one stored record per text, and the
new records form a reply chain from the previous post whose root is the
root the previous post determines, with one pacing unit between
consecutive creates. -/
theorem createThreadLoop_ok (texts : List String) :
    ∀ (prevStored : Stored) (rest0 : List Stored) (results : List PostResult) (st : Upstream),
    st.records = prevStored :: rest0 →
    (∀ n, st.failAt n = none) →
    ∃ (newStored : List Stored) (st' : Upstream),
      createThreadLoop texts (some (refOf prevStored)) results st =
        (.ok (results ++ newStored.map toPostResult), st') ∧
      st'.records = newStored.reverse ++ st.records ∧
      chainFrom (inferredRoot prevStored (refOf prevStored)) (refOf prevStored)
        st.time texts newStored ∧
      st'.time = st.time + texts.length := by
  induction texts with
  | nil =>
      intro prevStored rest0 results st hrec hfail
      exact ⟨[], st, by simp [createThreadLoop], by simp, by simp [chainFrom], by simp⟩
  | cons text rest ih =>
      intro prevStored rest0 results st hrec hfail
      have hfind : st.records.find? (fun r => r.uri.did == (refOf prevStored).uri.did &&
          r.uri.rkey == (refOf prevStored).uri.rkey) = some prevStored := by
        rw [hrec]; exact find_head prevStored rest0
      have hpost := clientPost_reply_run text (refOf prevStored) st prevStored hfind (hfail _)
      set newp : Stored := mkPostStored text
        (some ⟨inferredRoot prevStored (refOf prevStored), refOf prevStored⟩) st with hnewp
      obtain ⟨newStored', st', hrun, hrecs, hchain, htime⟩ :=
        ih newp st.records (results ++ [toPostResult newp]) (sleep (afterCreate newp st))
          (by simp [sleep, afterCreate]) (by intro n; simpa [sleep, afterCreate] using hfail n)
      have hroot2 : inferredRoot newp (refOf newp) = inferredRoot prevStored (refOf prevStored) := by
        simp [hnewp, mkPostStored, inferredRoot, RecordValue.replyField]
      refine ⟨newp :: newStored', st', ?_, ?_, ?_, ?_⟩
      · show createThreadLoop (text :: rest) (some (refOf prevStored)) results st = _
        unfold createThreadLoop
        rw [hpost]
        show createThreadLoop rest (some (refOf newp)) (results ++ [toPostResult newp])
          (sleep (afterCreate newp st)) =
          (Except.ok (results ++ List.map toPostResult (newp :: newStored')), st')
        rw [hrun]
        simp
      · rw [hrecs]
        simp [sleep, afterCreate, List.append_assoc]
      · refine ⟨by simp [hnewp, mkPostStored], ?_⟩
        rw [hroot2] at hchain
        simpa [sleep, afterCreate] using hchain
      · rw [htime]
        simp [sleep, afterCreate]
        omega

/-- Reading the chain invariant positionally: the stored list has one post
per text; entry `j` is a post record created at `t + j` whose reply context
has the invariant root, and whose parent is `prev` at position 0 and the
entry at position `j - 1` after that. -/
theorem chainFrom_idx (texts : List String) :
    ∀ (stored : List Stored) (root prev : RecordRef) (t : Nat),
    chainFrom root prev t texts stored →
    stored.length = texts.length ∧
    ∀ j p, stored[j]? = some p → ∃ pr : PostRecord,
      p.value = .post pr ∧ pr.createdAt = t + j ∧
      (j = 0 → pr.reply = some ⟨root, prev⟩) ∧
      (∀ j' q, j = j' + 1 → stored[j']? = some q → pr.reply = some ⟨root, refOf q⟩) := by
  induction texts with
  | nil =>
      intro stored root prev t h
      cases stored with
      | nil => exact ⟨rfl, by intro j p hp; simp at hp⟩
      | cons p ps => exact absurd h (by simp [chainFrom])
  | cons text rest ih =>
      intro stored root prev t h
      cases stored with
      | nil => exact absurd h (by simp [chainFrom])
      | cons p ps =>
          obtain ⟨hval, hchain⟩ := h
          obtain ⟨hlen, hidx⟩ := ih ps root (refOf p) (t + 1) hchain
          refine ⟨by simp [hlen], ?_⟩
          intro j q hq
          cases j with
          | zero =>
              simp at hq
              subst hq
              refine ⟨⟨text, some ⟨root, prev⟩, t⟩, hval, by simp, fun _ => rfl, ?_⟩
              intro j' q' hcontra
              exact absurd hcontra (by omega)
          | succ j3 =>
              simp only [List.getElem?_cons_succ] at hq
              obtain ⟨pr, hpr, hct, h0, hsucc⟩ := hidx j3 q hq
              refine ⟨pr, hpr, by omega, by omega, ?_⟩
              intro j' q' hj hq'
              cases j' with
              | zero =>
                  simp at hq'
                  subst hq'
                  have hj3 : j3 = 0 := by omega
                  subst hj3
                  exact h0 rfl
              | succ j4 =>
                  simp only [List.getElem?_cons_succ] at hq'
                  exact hsucc j4 q' (by omega) hq'

/-- C4: thread creation with N texts (2 ≤ N ≤ 25) and no upstream failure
creates exactly N posts sequentially; for every k, post k+1's reply parent
is post k's reference and its root is post 0's reference, and one pacing
unit elapses between each pair of successive creates. -/
theorem c4_thread_chain (texts : List String) (st : Upstream)
    (h2 : 2 ≤ texts.length) (h25 : texts.length ≤ 25)
    (hfail : ∀ n, st.failAt n = none) :
    ∃ (stored : List Stored) (res : ThreadResult) (st' : Upstream),
      createThreadHandler texts st = (.ok res, st') ∧
      res.thread = stored.map toPostResult ∧
      res.count = texts.length ∧
      stored.length = texts.length ∧
      st'.records = stored.reverse ++ st.records ∧
      (∀ k p q, stored[k]? = some p → stored[k + 1]? = some q →
        ∃ (pr pp : PostRecord) (r0 : Stored),
          q.value = .post pr ∧ p.value = .post pp ∧ stored[0]? = some r0 ∧
          pr.reply = some { root := refOf r0, parent := refOf p } ∧
          pr.createdAt = pp.createdAt + 1) := by
  obtain ⟨t0, rest, rfl⟩ : ∃ t0 rest, texts = t0 :: rest := by
    cases texts with
    | nil => simp at h2
    | cons a l => exact ⟨a, l, rfl⟩
  have hpost := clientPost_top_run t0 st (hfail _)
  set p0 : Stored := mkPostStored t0 none st with hp0
  obtain ⟨newStored', st', hrun, hrecs, hchain, htime⟩ :=
    createThreadLoop_ok rest p0 st.records [toPostResult p0] (sleep (afterCreate p0 st))
      (by simp [sleep, afterCreate]) (by intro n; simpa [sleep, afterCreate] using hfail n)
  have hroot : inferredRoot p0 (refOf p0) = refOf p0 := by
    simp [hp0, mkPostStored, inferredRoot, RecordValue.replyField]
  rw [hroot] at hchain
  obtain ⟨hlen, hidx⟩ := chainFrom_idx rest newStored' _ _ _ hchain
  have hloop : createThreadLoop (t0 :: rest) none [] st =
      (.ok (toPostResult p0 :: newStored'.map toPostResult), st') := by
    unfold createThreadLoop
    rw [hpost]
    show createThreadLoop rest (some (refOf p0)) ([] ++ [toPostResult p0])
      (sleep (afterCreate p0 st)) =
      (Except.ok ([toPostResult p0] ++ newStored'.map toPostResult), st')
    rw [List.nil_append]
    exact hrun
  refine ⟨p0 :: newStored',
    { thread := toPostResult p0 :: newStored'.map toPostResult,
      count := (toPostResult p0 :: newStored'.map toPostResult).length,
      first_post_url := (toPostResult p0).url,
      message := "Thread created with " ++
        Nat.repr (toPostResult p0 :: newStored'.map toPostResult).length ++
        " posts! View at: " ++ (toPostResult p0).url },
    st', ?_, by simp, ?_, ?_, ?_, ?_⟩
  · show createThreadHandler (t0 :: rest) st = _
    unfold createThreadHandler
    rw [hloop]
  · simp [hlen]
  · simp [hlen]
  · rw [hrecs]
    simp [sleep, afterCreate, List.append_assoc]
  · intro k p q hp hq
    simp only [List.getElem?_cons_succ] at hq
    obtain ⟨pr, hpr, hct, h0, hsucc⟩ := hidx k q hq
    cases k with
    | zero =>
        simp at hp
        subst hp
        refine ⟨pr, ⟨t0, none, st.time⟩, p0, hpr, rfl, by simp, h0 rfl, ?_⟩
        simp [sleep, afterCreate] at hct
        simpa using hct
    | succ k3 =>
        simp only [List.getElem?_cons_succ] at hp
        obtain ⟨pp, hpp, hctp, -, -⟩ := hidx k3 p hp
        refine ⟨pr, pp, p0, hpr, hpp, by simp, hsucc k3 p rfl hp, by omega⟩

/-- C6 (counterexample): the claim says an input beginning with the PNG
magic bytes yields `image/png`, but neither detector in the source sniffs
magic bytes: on the eight-byte PNG signature itself both return
`image/jpeg`, so the claimed characterisation is false at this input. -/
theorem c6_counterexample :
    c6ClaimedPngCondition pngMagic = true ∧
    detectImageEncoding pngMagic = ImageEncoding.jpeg ∧
    detectImageEncodingAvatar pngMagic = ImageEncoding.jpeg := by decide

/-- C6 (amended): `detectImageEncoding` (posting tools) returns `image/png`
exactly when the lower-cased input ends in `.png`, or it ends in neither
`.jpg` nor `.jpeg` and begins with the literal prefix `data:image/png`;
the avatar-tool detector returns `image/png` exactly when the lower-cased
input ends in `.png` or begins with `data:image/png`.  Every other input
— including data beginning with the PNG magic bytes — yields `image/jpeg`;
there is no magic-byte sniffing. -/
theorem c6_image_encoding (s : String) :
    (detectImageEncoding s = .png ↔
      (jsEndsWith (jsLower s) ".png" = true ∨
        (jsEndsWith (jsLower s) ".jpg" = false ∧ jsEndsWith (jsLower s) ".jpeg" = false ∧
          jsStartsWith s "data:image/png" = true))) ∧
    (detectImageEncodingAvatar s = .png ↔
      (jsEndsWith (jsLower s) ".png" = true ∨ jsStartsWith s "data:image/png" = true)) ∧
    (detectImageEncoding s = .png ∨ detectImageEncoding s = .jpeg) := by
  cases h1 : jsEndsWith (jsLower s) ".png" <;>
  cases h2 : jsEndsWith (jsLower s) ".jpg" <;>
  cases h3 : jsEndsWith (jsLower s) ".jpeg" <;>
  cases h4 : jsStartsWith s "data:image/png" <;>
  cases h5 : jsStartsWith s "data:image/jpeg" <;>
  cases h6 : jsStartsWith s "data:image/jpg" <;>
    simp [detectImageEncoding, detectImageEncodingAvatar, h1, h2, h3, h4, h5, h6]

/-- C1: posting with a `replyTo` reference resolves the parent record and
sets `reply.parent` to the supplied reference; `reply.root` is copied from
the parent's own root when the parent is itself a reply, and equals the
supplied reference (so `root == parent`) when the parent is a top-level
post. -/
theorem c1_reply_root_inference (text : String) (rt : RecordRef) (st : Upstream)
    (parent : Stored)
    (hfind : st.records.find? (fun r => r.uri.did == rt.uri.did && r.uri.rkey == rt.uri.rkey)
      = some parent)
    (hok : st.failAt st.creates = none) :
    ∃ (res : PostResult) (st' : Upstream) (stored : Stored) (pr : PostRecord),
      BlueskyClient.post text (some rt) st = (.ok res, st') ∧
      st'.records = stored :: st.records ∧
      stored.uri = res.uri ∧ stored.cid = res.cid ∧
      stored.value = .post pr ∧
      (∀ parentReply, parent.value.replyField = some parentReply →
        pr.reply = some { root := parentReply.root, parent := rt }) ∧
      (parent.value.replyField = none →
        pr.reply = some { root := rt, parent := rt }) := by
  have hrun := clientPost_reply_run text rt st parent hfind hok
  refine ⟨toPostResult (mkPostStored text (some ⟨inferredRoot parent rt, rt⟩) st),
    afterCreate (mkPostStored text (some ⟨inferredRoot parent rt, rt⟩) st) st,
    mkPostStored text (some ⟨inferredRoot parent rt, rt⟩) st,
    ⟨text, some ⟨inferredRoot parent rt, rt⟩, st.time⟩,
    hrun, rfl, rfl, rfl, rfl, ?_, ?_⟩
  · intro parentReply hpr
    simp [inferredRoot, hpr]
  · intro hpr
    simp [inferredRoot, hpr]

/-- C1 witness: replying to the reply `R` in the concrete state `c1State`
(which holds a top-level post `P` under rkey 0 and the reply `R` to it
under rkey 1) yields a record with `root = P`'s reference and
`parent = R`'s reference. -/
theorem c1_witness :
    ∃ (res : PostResult) (st' : Upstream) (stored : Stored) (pr : PostRecord),
      BlueskyClient.post "hi" (some c1ParentRef) c1State = (.ok res, st') ∧
      st'.records = stored :: c1State.records ∧
      stored.value = .post pr ∧
      pr.reply = some { root := c1RootRef, parent := c1ParentRef } := by
  obtain ⟨res, st', stored, pr, h1, h2, h3, h4, h5, h6, -⟩ :=
    c1_reply_root_inference "hi" c1ParentRef c1State c1ParentStored (by decide) rfl
  exact ⟨res, st', stored, pr, h1, h2, h5, h6 ⟨c1RootRef, c1RootRef⟩ rfl⟩

/-- C4 witness: creating a thread from three texts in the empty initial
state satisfies the chain specification concretely. -/
theorem c4_witness :
    ∃ (stored : List Stored) (res : ThreadResult) (st' : Upstream),
      createThreadHandler ["one", "two", "three"] initialUpstream = (.ok res, st') ∧
      res.thread = stored.map toPostResult ∧
      res.count = 3 ∧
      stored.length = 3 ∧
      st'.records = stored.reverse ++ initialUpstream.records ∧
      (∀ k p q, stored[k]? = some p → stored[k + 1]? = some q →
        ∃ (pr pp : PostRecord) (r0 : Stored),
          q.value = .post pr ∧ p.value = .post pp ∧ stored[0]? = some r0 ∧
          pr.reply = some { root := refOf r0, parent := refOf p } ∧
          pr.createdAt = pp.createdAt + 1) :=
  c4_thread_chain ["one", "two", "three"] initialUpstream (by decide) (by decide) (fun _ => rfl)

/-- Evaluation of an upstream-failing top-level `client.post`. -/
theorem clientPost_top_fail (text : String) (st : Upstream) (msg : String)
    (hbad : st.failAt st.creates = some msg) :
    BlueskyClient.post text none st = (.error msg, { st with creates := st.creates + 1 }) := by
  simp only [BlueskyClient.post, createRecord, hbad]

/-- Evaluation of an upstream-failing reply `client.post` (the parent
lookup resolves, the create itself fails). -/
theorem clientPost_reply_fail (text : String) (rt : RecordRef) (st : Upstream)
    (parent : Stored) (msg : String)
    (hfind : st.records.find? (fun r => r.uri.did == rt.uri.did && r.uri.rkey == rt.uri.rkey)
      = some parent)
    (hbad : st.failAt st.creates = some msg) :
    BlueskyClient.post text (some rt) st = (.error msg, { st with creates := st.creates + 1 }) := by
  simp only [BlueskyClient.post, agentGetPost, createRecord, hfind, hbad]

/-- Failure run of the `create_thread` loop: when the `i`-th create (of
this loop) is the first to fail upstream, the loop aborts with exactly the
upstream message, the `i` already-created posts remain in the upstream
store, and the accumulated results array is lost with the thrown
exception. -/
theorem createThreadLoop_fail (texts : List String) :
    ∀ (i : Nat) (prevStored : Stored) (rest0 : List Stored) (results : List PostResult)
      (st : Upstream) (msg : String),
    st.records = prevStored :: rest0 →
    i < texts.length →
    (∀ n, n < st.creates + i → st.failAt n = none) →
    st.failAt (st.creates + i) = some msg →
    ∃ (newStored : List Stored) (st' : Upstream),
      createThreadLoop texts (some (refOf prevStored)) results st = (.error msg, st') ∧
      st'.records = newStored.reverse ++ st.records ∧
      newStored.length = i := by
  induction texts with
  | nil =>
      intro i _ _ _ _ _ _ hi _ _
      simp at hi
  | cons text rest ih =>
      intro i prevStored rest0 results st msg hrec hi hbefore hfail
      have hfind : st.records.find? (fun r => r.uri.did == (refOf prevStored).uri.did &&
          r.uri.rkey == (refOf prevStored).uri.rkey) = some prevStored := by
        rw [hrec]; exact find_head prevStored rest0
      cases i with
      | zero =>
          have hbad : st.failAt st.creates = some msg := by simpa using hfail
          have hpost := clientPost_reply_fail text (refOf prevStored) st prevStored msg hfind hbad
          refine ⟨[], { st with creates := st.creates + 1 }, ?_, by simp, rfl⟩
          show createThreadLoop (text :: rest) (some (refOf prevStored)) results st = _
          unfold createThreadLoop
          rw [hpost]
      | succ i' =>
          have hok : st.failAt st.creates = none := hbefore _ (by omega)
          have hpost := clientPost_reply_run text (refOf prevStored) st prevStored hfind hok
          set newp : Stored := mkPostStored text
            (some ⟨inferredRoot prevStored (refOf prevStored), refOf prevStored⟩) st with hnewp
          obtain ⟨newStored', st', hrun, hrecs, hlen⟩ :=
            ih i' newp st.records (results ++ [toPostResult newp]) (sleep (afterCreate newp st))
              msg (by simp [sleep, afterCreate]) (by simpa using hi)
              (by intro n hn
                  apply hbefore
                  have hcr : (sleep (afterCreate newp st)).creates = st.creates + 1 := rfl
                  rw [hcr] at hn
                  omega)
              (by show st.failAt (st.creates + 1 + i') = some msg
                  have : st.creates + 1 + i' = st.creates + (i' + 1) := by omega
                  rw [this]
                  exact hfail)
          refine ⟨newp :: newStored', st', ?_, ?_, by simp [hlen]⟩
          · show createThreadLoop (text :: rest) (some (refOf prevStored)) results st = _
            unfold createThreadLoop
            rw [hpost]
            show createThreadLoop rest (some (refOf newp)) (results ++ [toPostResult newp])
              (sleep (afterCreate newp st)) = (Except.error msg, st')
            exact hrun
          · rw [hrecs]
            simp [sleep, afterCreate, List.append_assoc]

/-- Dispatch reduces to the looked-up tool's outcome. -/
theorem dispatch_found (registry : List (String × ToolHandler)) (name : String)
    (tool : ToolHandler) (args : Option ToolArgs) (st : Upstream)
    (hlook : List.lookup name registry = some tool) :
    dispatch registry name args st =
      (match tool (args.getD .emptyArgs) st with
       | (.ok result, st') => ({ text := result, isError := false }, st')
       | (.error msg, st') =>
           ({ text := "Error executing " ++ name ++ ": " ++ msg, isError := true }, st')) := by
  unfold dispatch
  rw [hlook]

/-- C5 (amended): when the `i`-th create of a thread is the first to fail
upstream, the chain aborts there (exactly `i` posts were created), the
already-created prefix remains upstream (no rollback), and the dispatcher
surfaces an error envelope whose text is exactly the fixed prefix plus the
upstream message — the envelope does not include the prefix posts'
references, because the handler's `results` array is lost with the thrown
exception. -/
theorem c5_abort_no_rollback (texts : List String) (st : Upstream) (i : Nat) (msg : String)
    (hi : i < texts.length)
    (hbefore : ∀ n, n < st.creates + i → st.failAt n = none)
    (hfail : st.failAt (st.creates + i) = some msg) :
    ∃ (stored : List Stored) (st' : Upstream),
      dispatch modeledTools "create_thread" (some (.threadArgs texts)) st =
        ({ text := "Error executing create_thread: " ++ msg, isError := true }, st') ∧
      st'.records = stored.reverse ++ st.records ∧
      stored.length = i := by
  obtain ⟨t0, rest, rfl⟩ : ∃ t0 rest, texts = t0 :: rest := by
    cases texts with
    | nil => simp at hi
    | cons a l => exact ⟨a, l, rfl⟩
  have key : ∃ (stored : List Stored) (st' : Upstream),
      createThreadHandler (t0 :: rest) st = (.error msg, st') ∧
      st'.records = stored.reverse ++ st.records ∧
      stored.length = i := by
    cases i with
    | zero =>
        have hbad : st.failAt st.creates = some msg := by simpa using hfail
        have hpost := clientPost_top_fail t0 st msg hbad
        refine ⟨[], { st with creates := st.creates + 1 }, ?_, by simp, rfl⟩
        unfold createThreadHandler createThreadLoop
        rw [hpost]
    | succ i' =>
        have hok : st.failAt st.creates = none := hbefore _ (by omega)
        have hpost := clientPost_top_run t0 st hok
        set p0 : Stored := mkPostStored t0 none st with hp0
        obtain ⟨newStored', st', hrun, hrecs, hlen⟩ :=
          createThreadLoop_fail rest i' p0 st.records [toPostResult p0]
            (sleep (afterCreate p0 st)) msg (by simp [sleep, afterCreate])
            (by simpa using hi)
            (by intro n hn
                apply hbefore
                have hcr : (sleep (afterCreate p0 st)).creates = st.creates + 1 := rfl
                rw [hcr] at hn
                omega)
            (by show st.failAt (st.creates + 1 + i') = some msg
                have : st.creates + 1 + i' = st.creates + (i' + 1) := by omega
                rw [this]
                exact hfail)
        have hloop : createThreadLoop (t0 :: rest) none [] st = (.error msg, st') := by
          unfold createThreadLoop
          rw [hpost]
          show createThreadLoop rest (some (refOf p0)) ([] ++ [toPostResult p0])
            (sleep (afterCreate p0 st)) = (Except.error msg, st')
          rw [List.nil_append]
          exact hrun
        refine ⟨p0 :: newStored', st', ?_, ?_, by simp [hlen]⟩
        · unfold createThreadHandler
          rw [hloop]
        · rw [hrecs]
          simp [sleep, afterCreate, List.append_assoc]
  obtain ⟨stored, st', hh, hr, hl⟩ := key
  refine ⟨stored, st', ?_, hr, hl⟩
  have htool : createThreadTool (.threadArgs (t0 :: rest)) st = (.error msg, st') := by
    show (match createThreadHandler (t0 :: rest) st with
          | (.ok r, s) => (Except.ok (serializeThreadResult r), s)
          | (.error e, s) => (Except.error e, s)) = (.error msg, st')
    rw [hh]
  rw [dispatch_found modeledTools "create_thread" createThreadTool
    (some (.threadArgs (t0 :: rest))) st rfl]
  simp only [Option.getD_some]
  rw [htool]
  rfl

/-- C5 witness: the concrete failing-at-step-1 scenario, through the
amended theorem. -/
theorem c5_witness :
    ∃ (stored : List Stored) (st' : Upstream),
      dispatch modeledTools "create_thread" (some (.threadArgs ["one", "two"])) c5State =
        ({ text := "Error executing create_thread: Rate limit exceeded", isError := true },
         st') ∧
      st'.records = stored.reverse ++ c5State.records ∧
      stored.length = 1 :=
  c5_abort_no_rollback ["one", "two"] c5State 1 "Rate limit exceeded" (by decide)
    (by intro n hn
        have hc : c5State.creates = 0 := rfl
        rw [hc] at hn
        have hn0 : n = 0 := by omega
        subst hn0
        rfl)
    rfl

/-- C5 (counterexample): in the concrete two-post thread whose second
create fails upstream, the surfaced envelope is exactly the fixed error
text; post 0 was created and remains upstream (its record is in the final
state), yet neither its AT-URI nor its web URL occurs anywhere in the
surfaced text — contradicting the claim that the surfaced result contains
the references of the already-created prefix. -/
theorem c5_prefix_not_surfaced :
    (dispatch modeledTools "create_thread" (some (.threadArgs ["one", "two"])) c5State).1 =
      { text := "Error executing create_thread: Rate limit exceeded", isError := true } ∧
    (dispatch modeledTools "create_thread" (some (.threadArgs ["one", "two"])) c5State).2.records =
      [⟨⟨selfDid, "app.bsky.feed.post", 0⟩, 0, .post ⟨"one", none, 0⟩⟩] ∧
    strHasRun
      (dispatch modeledTools "create_thread" (some (.threadArgs ["one", "two"])) c5State).1.text
      (atUriString ⟨selfDid, "app.bsky.feed.post", 0⟩) = false ∧
    strHasRun
      (dispatch modeledTools "create_thread" (some (.threadArgs ["one", "two"])) c5State).1.text
      (postUrl ⟨selfDid, "app.bsky.feed.post", 0⟩) = false := by
  refine ⟨?_, ?_, ?_, ?_⟩ <;> decide

/-- C2: for every registry, tool and argument payload, the dispatch
boundary converts a thrown handler error into an error envelope whose text
contains the exception's message (it never propagates the exception —
`dispatch` is total and returns an envelope in both cases), and wraps a
normal handler result in a success envelope with no error flag. -/
theorem c2_dispatch_boundary (registry : List (String × ToolHandler)) (name : String)
    (tool : ToolHandler) (args : Option ToolArgs) (st : Upstream)
    (hlook : List.lookup name registry = some tool) :
    (∀ msg st', tool (args.getD .emptyArgs) st = (.error msg, st') →
      dispatch registry name args st =
        ({ text := "Error executing " ++ name ++ ": " ++ msg, isError := true }, st') ∧
      ∃ noise, "Error executing " ++ name ++ ": " ++ msg = noise ++ msg) ∧
    (∀ r st', tool (args.getD .emptyArgs) st = (.ok r, st') →
      dispatch registry name args st = ({ text := r, isError := false }, st')) := by
  constructor
  · intro msg st' hrun
    constructor
    · rw [dispatch_found registry name tool args st hlook, hrun]
    · exact ⟨"Error executing " ++ name ++ ": ", rfl⟩
  · intro r st' hrun
    rw [dispatch_found registry name tool args st hlook, hrun]

/-- C2 witness: in the modelled registry, a handler throw (deleting a
nonexistent like) is converted into an error envelope, and a normal
result (liking a stored post) into a success envelope. -/
theorem c2_witness :
    dispatch modeledTools "unlike_post" (some (.unlikeArgs c9PostUri)) initialUpstream =
      ({ text := "Error executing unlike_post: Record not found", isError := true },
       initialUpstream) ∧
    ∃ (txt : String) (st' : Upstream),
      dispatch modeledTools "like_post" (some (.likeArgs c9PostUri 7)) c9State =
        ({ text := txt, isError := false }, st') := by
  constructor
  · exact ((c2_dispatch_boundary modeledTools "unlike_post" unlikeTool
      (some (.unlikeArgs c9PostUri)) initialUpstream rfl).1 "Record not found"
      initialUpstream rfl).1
  · exact ⟨_, _, (c2_dispatch_boundary modeledTools "like_post" likeTool
      (some (.likeArgs c9PostUri 7)) c9State rfl).2 _ _ rfl⟩

/-- Unfolding lemma for one serving step. -/
theorem serve_cons (registry : List (String × ToolHandler)) (req : ToolRequest)
    (rest : List ToolRequest) (st : Upstream) :
    serve registry (req :: rest) st =
      ((dispatch registry req.name req.arguments st).1 ::
        (serve registry rest (dispatch registry req.name req.arguments st).2).1,
       (serve registry rest (dispatch registry req.name req.arguments st).2).2) := by
  show (match dispatch registry req.name req.arguments st with
        | (env, st') =>
            match serve registry rest st' with
            | (envs, st'') => (env :: envs, st'')) = _
  cases hd : dispatch registry req.name req.arguments st with
  | mk env st' =>
      cases hsv : serve registry rest st' with
      | mk envs st'' => simp [hd, hsv]

/-- C3: a tool name that is not a key of the registry produces an error
envelope carrying the unknown-tool message, leaves the upstream state
untouched, and does not abort the serving loop: the remaining requests
are served exactly as they would have been. -/
theorem c3_unknown_tool (registry : List (String × ToolHandler)) (name : String)
    (args : Option ToolArgs) (st : Upstream) (rest : List ToolRequest)
    (hlook : List.lookup name registry = none) :
    dispatch registry name args st =
      ({ text := "Unknown tool: " ++ name, isError := true }, st) ∧
    serve registry ({ name := name, arguments := args } :: rest) st =
      (({ text := "Unknown tool: " ++ name, isError := true } : Envelope) ::
        (serve registry rest st).1,
       (serve registry rest st).2) := by
  have hd : dispatch registry name args st =
      ({ text := "Unknown tool: " ++ name, isError := true }, st) := by
    unfold dispatch
    rw [hlook]
  refine ⟨hd, ?_⟩
  rw [serve_cons, hd]

/-- C3 witness: dispatching a nonexistent tool name yields the unknown-tool
error envelope without touching the state, and a following request on the
same loop is still served (two envelopes come back for two requests). -/
theorem c3_witness :
    dispatch modeledTools "nonexistent_tool" (some .emptyArgs) initialUpstream =
      ({ text := "Unknown tool: nonexistent_tool", isError := true }, initialUpstream) ∧
    (serve modeledTools
      [{ name := "nonexistent_tool", arguments := some .emptyArgs },
       { name := "like_post", arguments := some (.likeArgs c9PostUri 7) }] c9State).1.length
      = 2 := by
  constructor
  · exact (c3_unknown_tool modeledTools "nonexistent_tool" (some .emptyArgs)
      initialUpstream [] rfl).1
  · decide

/-- C7: updateProfile is a merge-patch over the existing profile record:
omitted fields keep their existing values, supplied fields take the
supplied values, and fields outside the update (avatar, banner) are
carried over unchanged by the read-modify-write. -/
theorem c7_profile_merge_patch (u : ProfileUpdates) (p : ProfileRecord) (st : Upstream)
    (hp : st.profile = some p) :
    ∃ (st' : Upstream) (q : ProfileRecord),
      BlueskyClient.updateProfile u st = (.ok (), st') ∧
      st'.profile = some q ∧
      (u.displayName = none → q.displayName = p.displayName) ∧
      (u.description = none → q.description = p.description) ∧
      (∀ v, u.displayName = some v → q.displayName = some v) ∧
      (∀ v, u.description = some v → q.description = some v) ∧
      q.avatar = p.avatar ∧ q.banner = p.banner := by
  refine ⟨{ st with profile := some (upsertProfileTransform u st.profile) },
    upsertProfileTransform u st.profile, rfl, rfl, ?_, ?_, ?_, ?_, ?_, ?_⟩
  · intro h; simp [upsertProfileTransform, hp, h]
  · intro h; simp [upsertProfileTransform, hp, h]
  · intro v h; simp [upsertProfileTransform, h]
  · intro v h; simp [upsertProfileTransform, h]
  · simp [upsertProfileTransform, hp]
  · simp [upsertProfileTransform, hp]

/-- C7 witness: updating only the display name of a concrete profile
leaves the description, avatar and banner unchanged and sets the display
name. -/
theorem c7_witness :
    ∃ (st' : Upstream) (q : ProfileRecord),
      BlueskyClient.updateProfile ⟨some "X", none⟩
        { initialUpstream with
          profile := some ⟨some "old name", some "old bio", some "avatarblob", some "bannerblob"⟩ }
        = (.ok (), st') ∧
      st'.profile = some q ∧
      q.displayName = some "X" ∧
      q.description = some "old bio" ∧
      q.avatar = some "avatarblob" ∧ q.banner = some "bannerblob" := by
  obtain ⟨st', q, h1, h2, h3, h4, h5, h6, h7, h8⟩ :=
    c7_profile_merge_patch ⟨some "X", none⟩
      ⟨some "old name", some "old bio", some "avatarblob", some "bannerblob"⟩
      { initialUpstream with
        profile := some ⟨some "old name", some "old bio", some "avatarblob", some "bannerblob"⟩ }
      rfl
  exact ⟨st', q, h1, h2, h5 "X" rfl, h4 rfl, h7, h8⟩

/-- formatReplies is the `map(formatThread).filter(Boolean)` composite. -/
theorem formatReplies_eq (ts : List ThreadNode) :
    formatReplies ts = (ts.map formatThread).reduceOption := by
  induction ts with
  | nil => simp [formatReplies, List.reduceOption]
  | cons t ts ih =>
      cases h : formatThread t with
      | none => simp [formatReplies, h, ih, List.reduceOption]
      | some f => simp [formatReplies, h, ih, List.reduceOption]

/-- C8: the thread-formatting transform maps every deleted/unavailable
node to absent — not a placeholder — regardless of any subtree beneath it
(so all its descendants are omitted with it); a live node keeps its reply
list formatted with the absent children dropped; and a deleted node among
siblings is spliced out with the surrounding siblings preserved in
order. -/
theorem c8_thread_pruning :
    (∀ rs, formatThread (ThreadNode.notFound rs) = none) ∧
    (∀ p rs, formatThread (ThreadNode.post p rs) =
      some (.node p ((rs.map formatThread).reduceOption))) ∧
    (∀ xs ds ys, formatReplies (xs ++ ThreadNode.notFound ds :: ys) =
      formatReplies xs ++ formatReplies ys) := by
  refine ⟨fun rs => rfl, fun p rs => by rw [formatThread, formatReplies_eq], ?_⟩
  intro xs ds ys
  induction xs with
  | nil => simp [formatReplies, formatThread]
  | cons x xs ih =>
      cases h : formatThread x with
      | none => simp [formatReplies, h, ih]
      | some f => simp [formatReplies, h, ih]

/-- C10: for each listing tool, a supplied limit of 0 resolves to the
same upstream limit as an omitted limit — the documented default (50, or
25 for search) — and the limit forwarded upstream is never 0. -/
theorem c10_limit_zero_defaults :
    (getTimelineUpstreamLimit (some 0) = getTimelineUpstreamLimit none ∧
      getTimelineUpstreamLimit none = 50 ∧ ∀ l, getTimelineUpstreamLimit l ≠ 0) ∧
    (getAuthorFeedUpstreamLimit (some 0) = getAuthorFeedUpstreamLimit none ∧
      getAuthorFeedUpstreamLimit none = 50 ∧ ∀ l, getAuthorFeedUpstreamLimit l ≠ 0) ∧
    (searchPostsUpstreamLimit (some 0) = searchPostsUpstreamLimit none ∧
      searchPostsUpstreamLimit none = 25 ∧ ∀ l, searchPostsUpstreamLimit l ≠ 0) ∧
    (getFollowersUpstreamLimit (some 0) = getFollowersUpstreamLimit none ∧
      getFollowersUpstreamLimit none = 50 ∧ ∀ l, getFollowersUpstreamLimit l ≠ 0) ∧
    (getFollowingUpstreamLimit (some 0) = getFollowingUpstreamLimit none ∧
      getFollowingUpstreamLimit none = 50 ∧ ∀ l, getFollowingUpstreamLimit l ≠ 0) ∧
    (getPostLikesUpstreamLimit (some 0) = getPostLikesUpstreamLimit none ∧
      getPostLikesUpstreamLimit none = 50 ∧ ∀ l, getPostLikesUpstreamLimit l ≠ 0) ∧
    (getPostRepostsUpstreamLimit (some 0) = getPostRepostsUpstreamLimit none ∧
      getPostRepostsUpstreamLimit none = 50 ∧ ∀ l, getPostRepostsUpstreamLimit l ≠ 0) := by
  refine ⟨⟨rfl, rfl, ?_⟩, ⟨rfl, rfl, ?_⟩, ⟨rfl, rfl, ?_⟩, ⟨rfl, rfl, ?_⟩,
    ⟨rfl, rfl, ?_⟩, ⟨rfl, rfl, ?_⟩, ⟨rfl, rfl, ?_⟩⟩ <;>
  · intro l
    rcases l with - | v
    · simp [getTimelineUpstreamLimit, getAuthorFeedUpstreamLimit, searchPostsUpstreamLimit,
        getFollowersUpstreamLimit, getFollowingUpstreamLimit, getPostLikesUpstreamLimit,
        getPostRepostsUpstreamLimit, jsOrNum]
    · simp only [getTimelineUpstreamLimit, getAuthorFeedUpstreamLimit, searchPostsUpstreamLimit,
        getFollowersUpstreamLimit, getFollowingUpstreamLimit, getPostLikesUpstreamLimit,
        getPostRepostsUpstreamLimit, jsOrNum]
      split <;> simp_all

/-- Evaluation of a successful upstream record creation. -/
theorem createRecord_ok (coll : String) (v : RecordValue) (st : Upstream)
    (hok : st.failAt st.creates = none) :
    createRecord coll v st =
      (.ok ⟨⟨selfDid, coll, st.nextId⟩, st.nextId⟩,
       afterCreate ⟨⟨selfDid, coll, st.nextId⟩, st.nextId, v⟩ st) := by
  simp only [createRecord, hok, afterCreate]

/-- Deleting a reference no stored record carries is an upstream error. -/
theorem deleteRecordAt_not_found (repo coll : String) (rkey : Nat) (st : Upstream)
    (h : ∀ r ∈ st.records, r.uri ≠ (⟨repo, coll, rkey⟩ : AtUri)) :
    deleteRecordAt repo coll rkey st = (.error "Record not found", st) := by
  unfold deleteRecordAt
  have hany : st.records.any (fun r => r.uri == (⟨repo, coll, rkey⟩ : AtUri)) = false := by
    rw [List.any_eq_false]
    intro r hr
    simpa using h r hr
  simp [hany]

/-- Deleting the record just created removes exactly it: the rest of the
store is untouched because every pre-existing rkey is below the freshness
counter. -/
theorem delete_fresh_head (coll : String) (v : RecordValue) (st : Upstream)
    (hfresh : ∀ r ∈ st.records, r.uri.rkey < st.nextId) :
    deleteRecordAt selfDid coll st.nextId
      (afterCreate ⟨⟨selfDid, coll, st.nextId⟩, st.nextId, v⟩ st) =
      (.ok (), { afterCreate ⟨⟨selfDid, coll, st.nextId⟩, st.nextId, v⟩ st with
                 records := st.records }) := by
  have hfilter : st.records.filter
      (fun r => !(r.uri == (⟨selfDid, coll, st.nextId⟩ : AtUri))) = st.records := by
    rw [List.filter_eq_self]
    intro r hr
    have hlt := hfresh r hr
    simp only [Bool.not_eq_true', beq_eq_false_iff_ne, ne_eq]
    intro heq
    rw [heq] at hlt
    simp at hlt
  unfold deleteRecordAt afterCreate
  simp [List.any_cons, List.filter_cons, hfilter]

/-- Undoing with a reference that is not the relationship record's: the
fresh record's rkey differs from the given one, and no pre-existing record
lives at the given rkey in the relationship collection (rkeys are unique
across the store and the record at that rkey belongs to a different
collection), so the upstream delete fails. -/
theorem delete_wrong_ref (repo coll : String) (rkey : Nat) (s : Stored) (st : Upstream)
    (target : Stored)
    (hs : s.uri.rkey = st.nextId)
    (hfresh : ∀ r ∈ st.records, r.uri.rkey < st.nextId)
    (hdist : (st.records.map (fun r => r.uri.rkey)).Nodup)
    (hcoll : ∀ r ∈ st.records, r.uri.collection = r.value.nsid)
    (hmem : target ∈ st.records)
    (hrk : rkey = target.uri.rkey)
    (htc : target.value.nsid ≠ coll) :
    deleteRecordAt repo coll rkey (afterCreate s st) =
      (.error "Record not found", afterCreate s st) := by
  apply deleteRecordAt_not_found
  intro r hr
  have hrr : r = s ∨ r ∈ st.records := by simpa [afterCreate] using hr
  rcases hrr with rfl | hrmem
  · intro heq
    have h1 : r.uri.rkey = rkey := by rw [heq]
    have h2 : target.uri.rkey < st.nextId := hfresh target hmem
    omega
  · intro heq
    have h1 : r.uri.rkey = rkey := by rw [heq]
    rw [hrk] at h1
    have hrt : r = target := List.inj_on_of_nodup_map hdist hrmem hmem h1
    apply htc
    have hc2 : r.uri.collection = coll := by rw [heq]
    have hc3 : r.value.nsid = coll := by rw [← hcoll r hrmem]; exact hc2
    rw [← hrt]
    exact hc3

/-- Evaluation of a successful like_post handler call. -/
theorem likePostHandler_run (uri : AtUri) (cid : Nat) (st : Upstream)
    (hok : st.failAt st.creates = none) :
    likePostHandler uri cid st =
      (.ok ⟨true, ⟨selfDid, "app.bsky.feed.like", st.nextId⟩, "Post liked successfully!"⟩,
       afterCreate ⟨⟨selfDid, "app.bsky.feed.like", st.nextId⟩, st.nextId,
         .like ⟨uri, cid⟩⟩ st) := by
  unfold likePostHandler BlueskyClient.like
  rw [createRecord_ok _ _ _ hok]

/-- Evaluation of a successful repost handler call. -/
theorem repostHandler_run (uri : AtUri) (cid : Nat) (st : Upstream)
    (hok : st.failAt st.creates = none) :
    repostHandler uri cid st =
      (.ok ⟨true, ⟨selfDid, "app.bsky.feed.repost", st.nextId⟩, "Post reposted successfully!"⟩,
       afterCreate ⟨⟨selfDid, "app.bsky.feed.repost", st.nextId⟩, st.nextId,
         .repost ⟨uri, cid⟩⟩ st) := by
  unfold repostHandler BlueskyClient.repost
  rw [createRecord_ok _ _ _ hok]

/-- Evaluation of a successful follow handler call. -/
theorem followHandler_run (did : String) (st : Upstream)
    (hok : st.failAt st.creates = none) :
    followHandler did st =
      (.ok ⟨true, ⟨selfDid, "app.bsky.graph.follow", st.nextId⟩, "User followed successfully!"⟩,
       afterCreate ⟨⟨selfDid, "app.bsky.graph.follow", st.nextId⟩, st.nextId,
         .follow did⟩ st) := by
  unfold followHandler BlueskyClient.follow
  rw [createRecord_ok _ _ _ hok]

/-- Evaluation of a successful add_to_list handler call. -/
theorem addToListHandler_run (listUri : AtUri) (did : String) (st : Upstream)
    (hok : st.failAt st.creates = none) :
    addToListHandler listUri did st =
      (.ok ⟨true, ⟨selfDid, "app.bsky.graph.listitem", st.nextId⟩,
        "User added to list successfully!"⟩,
       afterCreate ⟨⟨selfDid, "app.bsky.graph.listitem", st.nextId⟩, st.nextId,
         .listitem listUri did⟩ st) := by
  unfold addToListHandler BlueskyClient.addToList
  rw [createRecord_ok _ _ _ hok]

/-- The like/unlike pair: like returns the like record's own reference
(distinct from the target post's), unlike with that reference deletes
exactly the like record, and unlike with the target post's own reference
is an upstream error. -/
theorem like_pair (st : Upstream) (target : Stored)
    (hok : st.failAt st.creates = none)
    (hfresh : ∀ r ∈ st.records, r.uri.rkey < st.nextId)
    (hdist : (st.records.map (fun r => r.uri.rkey)).Nodup)
    (hcoll : ∀ r ∈ st.records, r.uri.collection = r.value.nsid)
    (hmem : target ∈ st.records) (pv : PostRecord) (hpv : target.value = .post pv) :
    ∃ (lr : LikeResult) (st' : Upstream),
      likePostHandler target.uri target.cid st = (.ok lr, st') ∧
      st'.records = ⟨lr.like_uri, st.nextId, .like ⟨target.uri, target.cid⟩⟩ :: st.records ∧
      lr.like_uri ≠ target.uri ∧
      (∃ st'', unlikePostHandler lr.like_uri st' =
        (.ok ⟨true, "Like removed successfully!"⟩, st'') ∧ st''.records = st.records) ∧
      unlikePostHandler target.uri st' = (.error "Record not found", st') := by
  have hrun := likePostHandler_run target.uri target.cid st hok
  set likeU : AtUri := ⟨selfDid, "app.bsky.feed.like", st.nextId⟩ with hlu
  set likeS : Stored := ⟨likeU, st.nextId, .like ⟨target.uri, target.cid⟩⟩ with hls
  refine ⟨⟨true, likeU, "Post liked successfully!"⟩, afterCreate likeS st, hrun, rfl, ?_, ?_, ?_⟩
  · intro heq
    have h2 := hfresh target hmem
    rw [← heq] at h2
    simp [hlu] at h2
  · have hdel : deleteRecordAt likeU.did "app.bsky.feed.like" likeU.rkey (afterCreate likeS st) =
        (.ok (), { afterCreate likeS st with records := st.records }) :=
      delete_fresh_head "app.bsky.feed.like" (.like ⟨target.uri, target.cid⟩) st hfresh
    refine ⟨{ afterCreate likeS st with records := st.records }, ?_, rfl⟩
    unfold unlikePostHandler BlueskyClient.deleteLike
    rw [hdel]
  · have htc : target.value.nsid ≠ "app.bsky.feed.like" := by
      simp [hpv, RecordValue.nsid]
    have hdel := delete_wrong_ref target.uri.did "app.bsky.feed.like" target.uri.rkey
      likeS st target rfl hfresh hdist hcoll hmem rfl htc
    unfold unlikePostHandler BlueskyClient.deleteLike
    rw [hdel]

/-- The repost/unrepost pair, mirroring `like_pair`. -/
theorem repost_pair (st : Upstream) (target : Stored)
    (hok : st.failAt st.creates = none)
    (hfresh : ∀ r ∈ st.records, r.uri.rkey < st.nextId)
    (hdist : (st.records.map (fun r => r.uri.rkey)).Nodup)
    (hcoll : ∀ r ∈ st.records, r.uri.collection = r.value.nsid)
    (hmem : target ∈ st.records) (pv : PostRecord) (hpv : target.value = .post pv) :
    ∃ (rr : RepostResult) (st' : Upstream),
      repostHandler target.uri target.cid st = (.ok rr, st') ∧
      st'.records = ⟨rr.repost_uri, st.nextId, .repost ⟨target.uri, target.cid⟩⟩ :: st.records ∧
      rr.repost_uri ≠ target.uri ∧
      (∃ st'', deleteRepostHandler rr.repost_uri st' =
        (.ok ⟨true, "Repost deleted successfully!"⟩, st'') ∧ st''.records = st.records) ∧
      deleteRepostHandler target.uri st' = (.error "Record not found", st') := by
  have hrun := repostHandler_run target.uri target.cid st hok
  set rpU : AtUri := ⟨selfDid, "app.bsky.feed.repost", st.nextId⟩ with hru
  set rpS : Stored := ⟨rpU, st.nextId, .repost ⟨target.uri, target.cid⟩⟩ with hrs
  refine ⟨⟨true, rpU, "Post reposted successfully!"⟩, afterCreate rpS st, hrun, rfl, ?_, ?_, ?_⟩
  · intro heq
    have h2 := hfresh target hmem
    rw [← heq] at h2
    simp [hru] at h2
  · have hdel : deleteRecordAt rpU.did "app.bsky.feed.repost" rpU.rkey (afterCreate rpS st) =
        (.ok (), { afterCreate rpS st with records := st.records }) :=
      delete_fresh_head "app.bsky.feed.repost" (.repost ⟨target.uri, target.cid⟩) st hfresh
    refine ⟨{ afterCreate rpS st with records := st.records }, ?_, rfl⟩
    unfold deleteRepostHandler BlueskyClient.deleteRepost
    rw [hdel]
  · have htc : target.value.nsid ≠ "app.bsky.feed.repost" := by
      simp [hpv, RecordValue.nsid]
    have hdel := delete_wrong_ref target.uri.did "app.bsky.feed.repost" target.uri.rkey
      rpS st target rfl hfresh hdist hcoll hmem rfl htc
    unfold deleteRepostHandler BlueskyClient.deleteRepost
    rw [hdel]

/-- The follow/unfollow pair: follow returns the follow record's own
reference; unfollow consumes it; unfollow with the reference of any stored
record outside the follow collection is an upstream error. -/
theorem follow_pair (st : Upstream) (did : String)
    (hok : st.failAt st.creates = none)
    (hfresh : ∀ r ∈ st.records, r.uri.rkey < st.nextId)
    (hdist : (st.records.map (fun r => r.uri.rkey)).Nodup)
    (hcoll : ∀ r ∈ st.records, r.uri.collection = r.value.nsid) :
    ∃ (fr : FollowResult) (st' : Upstream),
      followHandler did st = (.ok fr, st') ∧
      st'.records = ⟨fr.follow_uri, st.nextId, .follow did⟩ :: st.records ∧
      (∃ st'', unfollowHandler fr.follow_uri st' =
        (.ok ⟨true, "User unfollowed successfully!"⟩, st'') ∧ st''.records = st.records) ∧
      (∀ target ∈ st.records, target.value.nsid ≠ "app.bsky.graph.follow" →
        unfollowHandler target.uri st' = (.error "Record not found", st')) := by
  have hrun := followHandler_run did st hok
  set flU : AtUri := ⟨selfDid, "app.bsky.graph.follow", st.nextId⟩ with hfu
  set flS : Stored := ⟨flU, st.nextId, .follow did⟩ with hfs
  refine ⟨⟨true, flU, "User followed successfully!"⟩, afterCreate flS st, hrun, rfl, ?_, ?_⟩
  · have hdel : deleteRecordAt flU.did "app.bsky.graph.follow" flU.rkey (afterCreate flS st) =
        (.ok (), { afterCreate flS st with records := st.records }) :=
      delete_fresh_head "app.bsky.graph.follow" (.follow did) st hfresh
    refine ⟨{ afterCreate flS st with records := st.records }, ?_, rfl⟩
    unfold unfollowHandler BlueskyClient.deleteFollow
    rw [hdel]
  · intro target hmem htc
    have hdel := delete_wrong_ref target.uri.did "app.bsky.graph.follow" target.uri.rkey
      flS st target rfl hfresh hdist hcoll hmem rfl htc
    unfold unfollowHandler BlueskyClient.deleteFollow
    rw [hdel]

/-- The add_to_list/remove_from_list pair, mirroring `follow_pair` (the
remove handler keys the delete on the authenticated repo and the given
URI's rkey). -/
theorem list_pair (st : Upstream) (listUri : AtUri) (did : String)
    (hok : st.failAt st.creates = none)
    (hfresh : ∀ r ∈ st.records, r.uri.rkey < st.nextId)
    (hdist : (st.records.map (fun r => r.uri.rkey)).Nodup)
    (hcoll : ∀ r ∈ st.records, r.uri.collection = r.value.nsid) :
    ∃ (ar : AddToListResult) (st' : Upstream),
      addToListHandler listUri did st = (.ok ar, st') ∧
      st'.records = ⟨ar.listitem_uri, st.nextId, .listitem listUri did⟩ :: st.records ∧
      (∃ st'', removeFromListHandler ar.listitem_uri st' =
        (.ok ⟨true, "User removed from list successfully!"⟩, st'') ∧
        st''.records = st.records) ∧
      (∀ target ∈ st.records, target.value.nsid ≠ "app.bsky.graph.listitem" →
        removeFromListHandler target.uri st' = (.error "Record not found", st')) := by
  have hrun := addToListHandler_run listUri did st hok
  set liU : AtUri := ⟨selfDid, "app.bsky.graph.listitem", st.nextId⟩ with hliu
  set liS : Stored := ⟨liU, st.nextId, .listitem listUri did⟩ with hlis
  refine ⟨⟨true, liU, "User added to list successfully!"⟩, afterCreate liS st, hrun, rfl, ?_, ?_⟩
  · have hdel : deleteRecordAt selfDid "app.bsky.graph.listitem" liU.rkey (afterCreate liS st) =
        (.ok (), { afterCreate liS st with records := st.records }) :=
      delete_fresh_head "app.bsky.graph.listitem" (.listitem listUri did) st hfresh
    refine ⟨{ afterCreate liS st with records := st.records }, ?_, rfl⟩
    unfold removeFromListHandler BlueskyClient.removeFromList
    rw [hdel]
  · intro target hmem htc
    have hdel := delete_wrong_ref selfDid "app.bsky.graph.listitem" target.uri.rkey
      liS st target rfl hfresh hdist hcoll hmem rfl htc
    unfold removeFromListHandler BlueskyClient.removeFromList
    rw [hdel]

/-- C9: for each engagement pair (like/unlike, repost/unrepost,
follow/unfollow, addToList/removeFromList), the "do" operation returns the
newly created relationship record's own reference in its success payload
(distinct from the target's reference), the "undo" operation given that
relationship reference passes it to the upstream delete and removes
exactly the relationship record, and the "undo" operation given the
target's own reference (or any stored reference outside the relationship
collection) fails as an upstream error rather than being silently
accepted. -/
theorem c9_undo_asymmetry (st : Upstream)
    (hok : st.failAt st.creates = none)
    (hfresh : ∀ r ∈ st.records, r.uri.rkey < st.nextId)
    (hdist : (st.records.map (fun r => r.uri.rkey)).Nodup)
    (hcoll : ∀ r ∈ st.records, r.uri.collection = r.value.nsid) :
    (∀ target ∈ st.records, ∀ pv, target.value = .post pv →
      ∃ (lr : LikeResult) (st' : Upstream),
        likePostHandler target.uri target.cid st = (.ok lr, st') ∧
        st'.records = ⟨lr.like_uri, st.nextId, .like ⟨target.uri, target.cid⟩⟩ :: st.records ∧
        lr.like_uri ≠ target.uri ∧
        (∃ st'', unlikePostHandler lr.like_uri st' =
          (.ok ⟨true, "Like removed successfully!"⟩, st'') ∧ st''.records = st.records) ∧
        unlikePostHandler target.uri st' = (.error "Record not found", st')) ∧
    (∀ target ∈ st.records, ∀ pv, target.value = .post pv →
      ∃ (rr : RepostResult) (st' : Upstream),
        repostHandler target.uri target.cid st = (.ok rr, st') ∧
        st'.records = ⟨rr.repost_uri, st.nextId,
          .repost ⟨target.uri, target.cid⟩⟩ :: st.records ∧
        rr.repost_uri ≠ target.uri ∧
        (∃ st'', deleteRepostHandler rr.repost_uri st' =
          (.ok ⟨true, "Repost deleted successfully!"⟩, st'') ∧ st''.records = st.records) ∧
        deleteRepostHandler target.uri st' = (.error "Record not found", st')) ∧
    (∀ did : String,
      ∃ (fr : FollowResult) (st' : Upstream),
        followHandler did st = (.ok fr, st') ∧
        st'.records = ⟨fr.follow_uri, st.nextId, .follow did⟩ :: st.records ∧
        (∃ st'', unfollowHandler fr.follow_uri st' =
          (.ok ⟨true, "User unfollowed successfully!"⟩, st'') ∧ st''.records = st.records) ∧
        (∀ target ∈ st.records, target.value.nsid ≠ "app.bsky.graph.follow" →
          unfollowHandler target.uri st' = (.error "Record not found", st'))) ∧
    (∀ (listUri : AtUri) (did : String),
      ∃ (ar : AddToListResult) (st' : Upstream),
        addToListHandler listUri did st = (.ok ar, st') ∧
        st'.records = ⟨ar.listitem_uri, st.nextId, .listitem listUri did⟩ :: st.records ∧
        (∃ st'', removeFromListHandler ar.listitem_uri st' =
          (.ok ⟨true, "User removed from list successfully!"⟩, st'') ∧
          st''.records = st.records) ∧
        (∀ target ∈ st.records, target.value.nsid ≠ "app.bsky.graph.listitem" →
          removeFromListHandler target.uri st' = (.error "Record not found", st'))) :=
  ⟨fun target hmem pv hpv => like_pair st target hok hfresh hdist hcoll hmem pv hpv,
   fun target hmem pv hpv => repost_pair st target hok hfresh hdist hcoll hmem pv hpv,
   fun did => follow_pair st did hok hfresh hdist hcoll,
   fun listUri did => list_pair st listUri did hok hfresh hdist hcoll⟩

/-- C9 witness: the like/unlike pair on the concrete state with a stored
post by another account. -/
theorem c9_witness :
    ∃ (lr : LikeResult) (st' : Upstream),
      likePostHandler c9PostUri 7 c9State = (.ok lr, st') ∧
      lr.like_uri ≠ c9PostUri ∧
      (∃ st'', unlikePostHandler lr.like_uri st' =
        (.ok ⟨true, "Like removed successfully!"⟩, st'') ∧ st''.records = c9State.records) ∧
      unlikePostHandler c9PostUri st' = (.error "Record not found", st') := by
  obtain ⟨hlike, -, -, -⟩ := c9_undo_asymmetry c9State rfl
    (by intro r hr
        simp only [c9State, List.mem_singleton] at hr
        subst hr
        decide)
    (by decide)
    (by intro r hr
        simp only [c9State, List.mem_singleton] at hr
        subst hr
        decide)
  obtain ⟨lr, st', h1, h2, h3, h4, h5⟩ := hlike c9Post (by simp [c9State]) ⟨"hello", none, 0⟩ rfl
  exact ⟨lr, st', h1, h3, h4, h5⟩

end Bluesky
